import Mathlib

/-!
Shallow embedding of the portion fetcher and quote entity model of the
uniswap-unified-routing-api repository, together with theorems settling the
specification claims about them.

Sources embedded:
- src/lib/fetchers/PortionFetcher.ts (PortionFetcher.getPortion, the address
  allowlist, the cache key, the constant responses);
- src/lib/entities/quote/ClassicQuote.ts (amount accessors, getPermitData,
  setAllowanceData);
- src/test/utils/quoteResponse.ts (parseQuote dispatch).

Conventions of the embedding:
- JavaScript `String.prototype.toLowerCase` is embedded as the per-character
  lowercase map `strToLower` (the program only lowercases ASCII hex addresses).
- Decimal-string numeric fields that the code immediately feeds to
  `BigNumber.from` (arbitrary-precision integers) are embedded as `Int`.
- Effects of `getPortion` (cache reads/writes, remote calls) are made explicit:
  the collaborators' behaviour for one call is a `PortionCollaborators` record
  and the call result is a `PortionOutcome` carrying the returned value (or the
  propagated exception) and the ordered list of effect events.
- The feature flag `uraEnablePortion()` is read up to twice per call in the
  source, so the two reads are two separate booleans.
-/

namespace URA

/-- Embedding of JavaScript `toLowerCase` on the address strings used here. -/
def strToLower (s : String) : String := ⟨s.data.map Char.toLower⟩

/-- PortionType enum from src/lib/fetchers/PortionFetcher.ts. -/
inductive PortionType where
  | Flat
  | Regressive
deriving DecidableEq, Repr

/-- Portion record from src/lib/fetchers/PortionFetcher.ts. -/
structure Portion where
  bips : Nat
  recipient : String
  ptype : PortionType
deriving DecidableEq, Repr

/-- GetPortionResponse from src/lib/fetchers/PortionFetcher.ts; the optional
`portion` field is an `Option`. -/
structure GetPortionResponse where
  hasPortion : Bool
  portion : Option Portion
deriving DecidableEq, Repr

/-- GET_NO_PORTION_RESPONSE constant. -/
def GET_NO_PORTION_RESPONSE : GetPortionResponse :=
  { hasPortion := false, portion := none }

/-- BX_PORTION_ADDRESSES allowlist, verbatim from the source. -/
def BX_PORTION_ADDRESSES : List String :=
  [ "eth"
  , "0x0000000000000000000000000000000000000000"
  , "0xa0b86991c6218b36c1d19d4a2e9eb0ce3606eb48"
  , "0xc02aaa39b223fe8d0a0e5c4f27ead9083c756cc2"
  , "0xdac17f958d2ee523a2206206994597c13d831ec7"
  , "0x6b175474e89094c44da98b954eedeac495271d0f"
  , "0x2260fac5e5542a773aa44fbcfedf7c193bc2c599"
  , "0x1a7e4e63778b4f12a199c062f3efdd288afcbce8"
  , "0x056fd409e1d7a124bd7017459dfea2f387b6d5cd"
  , "0x5f98805a4e8be255a32880fdec7f6728c6568ba0"
  , "0x1abaea1f7c830bd89acc67ec4af516284b1bc33c"
  , "0x70e8de73ce538da2beed35d14187f6959a8eca96" ]

/-- BX_PORTION_RESPONSE constant flat-fee response from the source. -/
def BX_PORTION_RESPONSE : GetPortionResponse :=
  { hasPortion := true
  , portion := some
      { bips := 5
      , recipient := "0x27213E28D7fDA5c57Fe9e5dD923818DBCcf71c47"
      , ptype := PortionType.Flat } }

/-- PortionFetcher construction state: the API url and the two TTL
configuration values (src/lib/fetchers/PortionFetcher.ts, constructor). -/
structure PortionFetcher where
  portionApiUrl : String
  positiveCacheEntryTtl : Nat
  negativeCacheEntryTtl : Nat

/-- PORTION_CACHE_KEY from src/lib/fetchers/PortionFetcher.ts: both addresses
are lower-cased before composition. -/
def PORTION_CACHE_KEY (tokenInChainId : Nat) (tokenInAddress : String)
    (tokenOutChainId : Nat) (tokenOutAddress : String) : String :=
  "PortionFetcher-" ++ toString tokenInChainId ++ "-" ++ strToLower tokenInAddress
    ++ "-" ++ toString tokenOutChainId ++ "-" ++ strToLower tokenOutAddress

/-- One observable effect of a `getPortion` call on its collaborators. -/
inductive PortionEvent where
  | cacheGet (key : String)
  | remoteCall (tokenInChainId : Nat) (tokenInAddress : String)
      (tokenOutChainId : Nat) (tokenOutAddress : String)
  | cacheSet (key : String) (value : GetPortionResponse) (ttl : Nat)
deriving DecidableEq, Repr

/-- Behaviour of the collaborators during one `getPortion` call:
the two per-call reads of the `uraEnablePortion` flag, the `forcePortion`
test switch, what the cache get would yield if reached (`Except.error` models
the store throwing), what the remote HTTP get would yield if reached
(`Except.error` models network error / non-2xx / deserialization failure), and
whether the cache set would throw if reached. -/
structure PortionCollaborators where
  flagRead1 : Bool
  flagRead2 : Bool
  forcePortion : Bool
  cacheGet : Except Unit (Option GetPortionResponse)
  remote : Except Unit GetPortionResponse
  cacheSet : Except Unit Unit

/-- Result of one `getPortion` call: the value returned to the caller (or the
exception that propagated, as `Except.error`), and the ordered effect trace. -/
structure PortionOutcome where
  result : Except Unit GetPortionResponse
  events : List PortionEvent
deriving Repr

/-- PortionFetcher.getPortion from src/lib/fetchers/PortionFetcher.ts,
control flow mirrored line by line:
1. `if (uraEnablePortion())` — first flag read: allowlist check on both
   lower-cased addresses, returning `BX_PORTION_RESPONSE` or
   `GET_NO_PORTION_RESPONSE` with no cache or network interaction;
2. `if (!uraEnablePortion())` — second flag read: return no-portion;
3. cache get (skipped when `forcePortion`; evaluated OUTSIDE the try/catch, so
   a throwing get propagates); cache hit returns the cached value;
4. try: remote call; on success cache set (skipped when `forcePortion`) with
   positive TTL when the response carries a portion else negative TTL, then
   return the response; catch: return no-portion. -/
def getPortion (f : PortionFetcher) (c : PortionCollaborators)
    (tokenInChainId : Nat) (tokenInAddress : String)
    (tokenOutChainId : Nat) (tokenOutAddress : String) : PortionOutcome :=
  if c.flagRead1 then
    if BX_PORTION_ADDRESSES.contains (strToLower tokenInAddress)
        && BX_PORTION_ADDRESSES.contains (strToLower tokenOutAddress) then
      { result := Except.ok BX_PORTION_RESPONSE, events := [] }
    else
      { result := Except.ok GET_NO_PORTION_RESPONSE, events := [] }
  else if !c.flagRead2 then
    { result := Except.ok GET_NO_PORTION_RESPONSE, events := [] }
  else
    let key := PORTION_CACHE_KEY tokenInChainId tokenInAddress tokenOutChainId tokenOutAddress
    if c.forcePortion then
      -- `!forcePortion && cache.get(...)` short-circuits: the store is not read.
      match c.remote with
      | Except.error _ =>
        { result := Except.ok GET_NO_PORTION_RESPONSE
        , events := [PortionEvent.remoteCall tokenInChainId tokenInAddress
            tokenOutChainId tokenOutAddress] }
      | Except.ok resp =>
        -- `if (!forcePortion)` guards the cache set: skipped here.
        { result := Except.ok resp
        , events := [PortionEvent.remoteCall tokenInChainId tokenInAddress
            tokenOutChainId tokenOutAddress] }
    else
      match c.cacheGet with
      | Except.error e =>
        -- the get sits outside the try block: the exception propagates.
        { result := Except.error e, events := [PortionEvent.cacheGet key] }
      | Except.ok (some v) =>
        { result := Except.ok v, events := [PortionEvent.cacheGet key] }
      | Except.ok none =>
        match c.remote with
        | Except.error _ =>
          { result := Except.ok GET_NO_PORTION_RESPONSE
          , events := [PortionEvent.cacheGet key,
              PortionEvent.remoteCall tokenInChainId tokenInAddress
                tokenOutChainId tokenOutAddress] }
        | Except.ok resp =>
          let ttl := match resp.portion with
            | some _ => f.positiveCacheEntryTtl
            | none => f.negativeCacheEntryTtl
          match c.cacheSet with
          | Except.error _ =>
            -- the set sits inside the try block: its exception is caught.
            { result := Except.ok GET_NO_PORTION_RESPONSE
            , events := [PortionEvent.cacheGet key,
                PortionEvent.remoteCall tokenInChainId tokenInAddress
                  tokenOutChainId tokenOutAddress,
                PortionEvent.cacheSet key resp ttl] }
          | Except.ok _ =>
            { result := Except.ok resp
            , events := [PortionEvent.cacheGet key,
                PortionEvent.remoteCall tokenInChainId tokenInAddress
                  tokenOutChainId tokenOutAddress,
                PortionEvent.cacheSet key resp ttl] }

/-- TradeType from @uniswap/sdk-core as used by the request info. -/
inductive TradeType where
  | EXACT_INPUT
  | EXACT_OUTPUT
deriving DecidableEq, Repr

/-- The request-info fields that ClassicQuote.ts reads off
`this.request.info`. `swapper` is an optional string; JavaScript treats both
`undefined` and the empty string as falsy (see `isFalsyStr`). -/
structure RequestInfo where
  requestId : String
  tokenInChainId : Nat
  tokenOutChainId : Nat
  tokenIn : String
  tokenOut : String
  tradeType : TradeType
  swapper : Option String
  slippageTolerance : Option String
deriving DecidableEq, Repr

/-- QuoteRequest as consumed by ClassicQuote (a carrier of `info`). -/
structure QuoteRequest where
  info : RequestInfo
deriving DecidableEq, Repr

/-- JavaScript truthiness of an optional string: `undefined` and `""` are
falsy, every other string truthy. -/
def isFalsyStr : Option String → Bool
  | none => true
  | some s => s.isEmpty

/-- ClassicQuoteDataJSON from src/lib/entities/quote/ClassicQuote.ts,
restricted to the fields the embedded operations read. The decimal-string
quantities (`amount`, `quote`, `quoteGasAdjusted`, `quoteGasAndPortionAdjusted`)
are embedded as the arbitrary-precision integers that `BigNumber.from` reads
off them; `quoteGasAndPortionAdjusted` is optional in the payload. -/
structure ClassicQuoteDataJSON where
  requestId : String
  quoteId : String
  amount : Int
  quote : Int
  quoteGasAdjusted : Int
  quoteGasAndPortionAdjusted : Option Int
  gasPriceWei : Int
  portionBips : Option Nat
  portionRecipient : Option String
deriving DecidableEq, Repr

/-- PermitDetails from @uniswap/permit2-sdk as used by ClassicQuote:
`amount` read through `BigNumber.from`, `expiration` compared as an integer
number of seconds, `nonce` rendered through `toString`. -/
structure PermitDetails where
  amount : Int
  expiration : Int
  nonce : Nat
deriving DecidableEq, Repr

/-- Modelled from the spec: the permit payload built by `createPermitData`
(src/lib/util/permit2.ts is not under src/). Per the spec it is constructed
from the requester's token-in address, the token-in chain id, and the
best-known nonce. -/
structure PermitSingleData where
  token : String
  chainId : Nat
  nonce : String
deriving DecidableEq, Repr

/-- Modelled from the spec: `createPermitData(tokenIn, tokenInChainId, nonce)`
packages its three arguments into the permit payload. -/
def createPermitData (token : String) (chainId : Nat) (nonce : String) :
    PermitSingleData :=
  { token := token, chainId := chainId, nonce := nonce }

/-- ClassicQuote entity state: the originating request (non-owning reference),
the raw payload, and the one late-bound field `allowanceData`. The ambient
identity fields (`quoteId` from uuidv4, the creation timestamps) are generated
from the environment at construction and are not part of the pure state. -/
structure ClassicQuote where
  request : QuoteRequest
  quoteData : ClassicQuoteDataJSON
  allowanceData : Option PermitDetails
deriving DecidableEq, Repr

/-- ClassicQuote.fromResponseBody: constructs the entity; no allowance data
has been recorded yet. -/
def ClassicQuote.fromResponseBody (request : QuoteRequest)
    (body : ClassicQuoteDataJSON) : ClassicQuote :=
  { request := request, quoteData := body, allowanceData := none }

/-- ClassicQuote.setAllowanceData: the single post-construction mutation. -/
def ClassicQuote.setAllowanceData (q : ClassicQuote)
    (data : Option PermitDetails) : ClassicQuote :=
  { q with allowanceData := data }

/-- ClassicQuote `get amountOut`. -/
def ClassicQuote.amountOut (q : ClassicQuote) : Int :=
  match q.request.info.tradeType with
  | TradeType.EXACT_INPUT => q.quoteData.quote
  | TradeType.EXACT_OUTPUT => q.quoteData.amount

/-- ClassicQuote `get amountOutGasAdjusted`. -/
def ClassicQuote.amountOutGasAdjusted (q : ClassicQuote) : Int :=
  match q.request.info.tradeType with
  | TradeType.EXACT_INPUT => q.quoteData.quoteGasAdjusted
  | TradeType.EXACT_OUTPUT => q.quoteData.amount

/-- ClassicQuote `get amountOutGasAndPortionAdjusted`: the
`quoteGasAndPortionAdjusted ?? quoteGasAdjusted` fallback on the computed
side. -/
def ClassicQuote.amountOutGasAndPortionAdjusted (q : ClassicQuote) : Int :=
  match q.request.info.tradeType with
  | TradeType.EXACT_INPUT =>
    (q.quoteData.quoteGasAndPortionAdjusted).getD q.quoteData.quoteGasAdjusted
  | TradeType.EXACT_OUTPUT => q.quoteData.amount

/-- ClassicQuote `get amountIn`. -/
def ClassicQuote.amountIn (q : ClassicQuote) : Int :=
  match q.request.info.tradeType with
  | TradeType.EXACT_OUTPUT => q.quoteData.quote
  | TradeType.EXACT_INPUT => q.quoteData.amount

/-- ClassicQuote `get amountInGasAdjusted`. -/
def ClassicQuote.amountInGasAdjusted (q : ClassicQuote) : Int :=
  match q.request.info.tradeType with
  | TradeType.EXACT_OUTPUT => q.quoteData.quoteGasAdjusted
  | TradeType.EXACT_INPUT => q.quoteData.amount

/-- ClassicQuote `get amountInGasAndPortionAdjusted`. -/
def ClassicQuote.amountInGasAndPortionAdjusted (q : ClassicQuote) : Int :=
  match q.request.info.tradeType with
  | TradeType.EXACT_OUTPUT =>
    (q.quoteData.quoteGasAndPortionAdjusted).getD q.quoteData.quoteGasAdjusted
  | TradeType.EXACT_INPUT => q.quoteData.amount

/-- ClassicQuote.getPermitData, with the wall clock passed explicitly:
`nowSec` is `Math.floor(Date.now() / 1000)`. Returns `none` when the swapper
is falsy, or when the recorded allowance covers `amountIn` and expires
strictly after `nowSec`; otherwise builds fresh permit data from the token-in
address/chain and the recorded nonce (or "0" with no allowance). -/
def ClassicQuote.getPermitData (q : ClassicQuote) (nowSec : Int) :
    Option PermitSingleData :=
  if isFalsyStr q.request.info.swapper
      || (match q.allowanceData with
          | some a => decide (q.amountIn ≤ a.amount) && decide (nowSec < a.expiration)
          | none => false) then
    none
  else
    some (createPermitData q.request.info.tokenIn q.request.info.tokenInChainId
      (match q.allowanceData with
       | some a => toString a.nonce
       | none => "0"))

/-- Modelled from the spec: the limit-order quote JSON shape
(DutchLimitQuoteJSON; its definition is not under src/), treated as an
uninterpreted payload. -/
structure DutchLimitQuoteJSON where
  payload : String
deriving DecidableEq, Repr

/-- Modelled from the spec: the limit-order quote variant (DutchLimitQuote;
its definition is not under src/), structurally parallel to ClassicQuote:
`fromResponseBody` wraps the request and raw payload. -/
structure DutchLimitQuote where
  request : QuoteRequest
  quoteData : DutchLimitQuoteJSON
deriving DecidableEq, Repr

/-- Modelled from the spec: DutchLimitQuote.fromResponseBody. -/
def DutchLimitQuote.fromResponseBody (request : QuoteRequest)
    (body : DutchLimitQuoteJSON) : DutchLimitQuote :=
  { request := request, quoteData := body }

/-- ReceivedQuoteData from src/test/utils/quoteResponse.ts:
`DutchLimitQuoteJSON | ClassicQuoteDataJSON`. -/
inductive ReceivedQuoteData where
  | dutch (d : DutchLimitQuoteJSON)
  | classic (d : ClassicQuoteDataJSON)
deriving DecidableEq, Repr

/-- Embedding of the unchecked TypeScript cast `quote as DutchLimitQuoteJSON`:
on the matching variant it is the identity; on the other variant the runtime
value is reinterpreted blindly (modelled by a default payload). -/
def ReceivedQuoteData.castDutch : ReceivedQuoteData → DutchLimitQuoteJSON
  | ReceivedQuoteData.dutch d => d
  | ReceivedQuoteData.classic _ => { payload := "" }

/-- Embedding of the unchecked TypeScript cast `quote as ClassicQuoteDataJSON`,
symmetrically. -/
def ReceivedQuoteData.castClassic : ReceivedQuoteData → ClassicQuoteDataJSON
  | ReceivedQuoteData.classic d => d
  | ReceivedQuoteData.dutch _ =>
    { requestId := "", quoteId := "", amount := 0, quote := 0
    , quoteGasAdjusted := 0, quoteGasAndPortionAdjusted := none
    , gasPriceWei := 0, portionBips := none, portionRecipient := none }

/-- The Quote union (`DutchQuote | ClassicQuote`). -/
inductive Quote where
  | dutchLimit (q : DutchLimitQuote)
  | classic (q : ClassicQuote)
deriving DecidableEq, Repr

/-- RoutingType tags. The enum itself lives in src/lib/constants.ts, which is
not under src/; at runtime a TypeScript enum value is its backing string, so
the tag is embedded as a string with the two recognized constants named by
the spec. -/
def RoutingType.DUTCH_LIMIT : String := "DUTCH_LIMIT"

/-- RoutingType CLASSIC tag. -/
def RoutingType.CLASSIC : String := "CLASSIC"

/-- parseQuote from src/test/utils/quoteResponse.ts: switch on the routing
tag; DUTCH_LIMIT and CLASSIC construct the matching entity from the (cast)
payload; any other tag throws `Unknown routing type: <tag>`, embedded as
`Except.error` carrying the message. -/
def parseQuote (request : QuoteRequest) (routing : String)
    (quote : ReceivedQuoteData) : Except String Quote :=
  if routing = RoutingType.DUTCH_LIMIT then
    Except.ok (Quote.dutchLimit (DutchLimitQuote.fromResponseBody request
      quote.castDutch))
  else if routing = RoutingType.CLASSIC then
    Except.ok (Quote.classic (ClassicQuote.fromResponseBody request
      quote.castClassic))
  else
    Except.error ("Unknown routing type: " ++ routing)

/-- buildQuoteResponse from src/test/utils/quoteResponse.ts. -/
def buildQuoteResponse (routing : String) (quote : ReceivedQuoteData)
    (request : QuoteRequest) : Except String Quote :=
  parseQuote request routing quote

/-- Case-insensitive equality of two strings: their per-character lowercase
normal forms coincide. -/
def eqUpToCase (a b : String) : Prop :=
  a.data.map Char.toLower = b.data.map Char.toLower

instance (a b : String) : Decidable (eqUpToCase a b) := by
  unfold eqUpToCase
  infer_instance

/-! Concrete sample values used by the witness theorems. -/

/-- A sample fetcher configuration. -/
def fetcherSample : PortionFetcher :=
  { portionApiUrl := "http://portion-service"
  , positiveCacheEntryTtl := 600
  , negativeCacheEntryTtl := 60 }

/-- Collaborators for a call on which the first flag read is enabled. -/
def cFlagOn : PortionCollaborators :=
  { flagRead1 := true, flagRead2 := true, forcePortion := false
  , cacheGet := Except.ok none, remote := Except.error (), cacheSet := Except.ok () }

/-- Collaborators on which both flag reads are disabled. -/
def cFlagOff : PortionCollaborators :=
  { flagRead1 := false, flagRead2 := false, forcePortion := false
  , cacheGet := Except.ok none, remote := Except.error (), cacheSet := Except.ok () }

/-- Collaborators reaching the cache-aside path (the two flag reads disagree)
with a cache miss and a failing remote call. -/
def cRemoteFails : PortionCollaborators :=
  { flagRead1 := false, flagRead2 := true, forcePortion := false
  , cacheGet := Except.ok none, remote := Except.error (), cacheSet := Except.ok () }

/-- Collaborators reaching the cache-aside path with a throwing cache get. -/
def cCacheGetThrows : PortionCollaborators :=
  { flagRead1 := false, flagRead2 := true, forcePortion := false
  , cacheGet := Except.error (), remote := Except.ok GET_NO_PORTION_RESPONSE
  , cacheSet := Except.ok () }

/-- A sample remote response carrying a portion. -/
def respWithPortion : GetPortionResponse :=
  { hasPortion := true
  , portion := some { bips := 12, recipient := "0xfee", ptype := PortionType.Flat } }

/-- Collaborators reaching the cache-aside path with a cache miss and a
successful remote call answering `respWithPortion`. -/
def cRemoteOk : PortionCollaborators :=
  { flagRead1 := false, flagRead2 := true, forcePortion := false
  , cacheGet := Except.ok none, remote := Except.ok respWithPortion
  , cacheSet := Except.ok () }

/-- Collaborators for the follow-up call: the cache now holds
`respWithPortion` for the key. -/
def cCacheHit : PortionCollaborators :=
  { flagRead1 := false, flagRead2 := true, forcePortion := false
  , cacheGet := Except.ok (some respWithPortion), remote := Except.error ()
  , cacheSet := Except.ok () }

/-- A sample classic raw payload: amount 100, quote 95, gas-adjusted 94, no
gas-and-portion-adjusted field. -/
def dataSample : ClassicQuoteDataJSON :=
  { requestId := "req-1", quoteId := "quote-1", amount := 100, quote := 95
  , quoteGasAdjusted := 94, quoteGasAndPortionAdjusted := none
  , gasPriceWei := 7, portionBips := none, portionRecipient := none }

/-- A sample EXACT_INPUT request with a swapper. -/
def reqExactInput : QuoteRequest :=
  { info :=
    { requestId := "req-1", tokenInChainId := 1, tokenOutChainId := 1
    , tokenIn := "0x6b175474e89094c44da98b954eedeac495271d0f"
    , tokenOut := "0xa0b86991c6218b36c1d19d4a2e9eb0ce3606eb48"
    , tradeType := TradeType.EXACT_INPUT
    , swapper := some "0x27213E28D7fDA5c57Fe9e5dD923818DBCcf71c47"
    , slippageTolerance := some "0.5" } }

/-- The same request with trade type EXACT_OUTPUT. -/
def reqExactOutput : QuoteRequest :=
  { info := { reqExactInput.info with tradeType := TradeType.EXACT_OUTPUT } }

/-! Helper lemmas about the shape of `getPortion` outcomes. -/

/-- The effect trace of a `getPortion` call is empty exactly when the two
flag reads do not come out first-false-then-true. -/
theorem getPortion_events_nil_iff (f : PortionFetcher) (f1 f2 fp : Bool)
    (cg : Except Unit (Option GetPortionResponse))
    (rm : Except Unit GetPortionResponse) (cs : Except Unit Unit)
    (tci : Nat) (tia : String) (tco : Nat) (toa : String) :
    (getPortion f ⟨f1, f2, fp, cg, rm, cs⟩ tci tia tco toa).events = [] ↔
      ¬(f1 = false ∧ f2 = true) := by
  cases f1 <;> cases f2 <;> cases fp <;>
    rcases cg with ⟨⟩ | (_ | vg) <;>
    rcases rm with ⟨⟩ | resp <;>
    rcases cs with ⟨⟩ | ⟨⟩ <;>
    (try simp [getPortion]) <;>
    (try split) <;>
    simp

/-- A `getPortion` call whose cache get (if reached) does not throw resolves
with `Except.ok`. -/
theorem getPortion_ok_of_cacheGet_ok (f : PortionFetcher)
    (c : PortionCollaborators) (tci : Nat) (tia : String) (tco : Nat)
    (toa : String) (og : Option GetPortionResponse)
    (hcg : c.cacheGet = Except.ok og) :
    ∃ r, (getPortion f c tci tia tco toa).result = Except.ok r := by
  cases hf1 : c.flagRead1 <;> cases hf2 : c.flagRead2 <;>
    cases hfp : c.forcePortion <;>
    rcases hrm : c.remote with ⟨⟩ | resp <;>
    rcases hcs : c.cacheSet with ⟨⟩ | ⟨⟩ <;>
    rcases og with _ | vg <;>
    (try simp [getPortion, hcg, hf1, hf2, hfp, hrm, hcs]) <;>
    (try split) <;>
    simp

/-! Claim theorems. -/

/-- C1: with the portion flag reading enabled and both token addresses on the
allowlist after lower-casing, `getPortion` returns the constant flat-fee
response `BX_PORTION_RESPONSE` (hasPortion true, bips 5, the fixed recipient,
type Flat) with an empty effect trace — no remote call and no cache read or
write — whatever the other collaborators would do, so the result is
deterministic. -/
theorem getPortion_allowlist_flat (f : PortionFetcher) (c : PortionCollaborators)
    (tci : Nat) (tia : String) (tco : Nat) (toa : String)
    (hflag : c.flagRead1 = true)
    (hin : BX_PORTION_ADDRESSES.contains (strToLower tia) = true)
    (hout : BX_PORTION_ADDRESSES.contains (strToLower toa) = true) :
    getPortion f c tci tia tco toa =
      { result := Except.ok BX_PORTION_RESPONSE, events := [] } := by
  have hin' : strToLower tia ∈ BX_PORTION_ADDRESSES := by simpa using hin
  have hout' : strToLower toa ∈ BX_PORTION_ADDRESSES := by simpa using hout
  simp [getPortion, hflag, hin', hout']

/-- C1 witness: a concrete allowlisted call (mixed-case USDC address, flag
enabled) yields the constant flat-fee response with no effects. -/
theorem getPortion_allowlist_flat_witness :
    getPortion fetcherSample cFlagOn 1 "ETH" 1
        "0xA0B86991C6218B36C1D19D4A2E9EB0CE3606EB48" =
      { result := Except.ok BX_PORTION_RESPONSE, events := [] } :=
  getPortion_allowlist_flat fetcherSample cFlagOn 1 "ETH" 1
    "0xA0B86991C6218B36C1D19D4A2E9EB0CE3606EB48" rfl (by decide) (by decide)

/-- C2: with the portion flag reading enabled and at least one token address
off the allowlist after lower-casing, `getPortion` returns the no-portion
response with an empty effect trace — the remote-service/cache-aside path is
unreachable with the flag enabled. -/
theorem getPortion_enabled_offlist (f : PortionFetcher) (c : PortionCollaborators)
    (tci : Nat) (tia : String) (tco : Nat) (toa : String)
    (hflag : c.flagRead1 = true)
    (hmiss : BX_PORTION_ADDRESSES.contains (strToLower tia) = false ∨
      BX_PORTION_ADDRESSES.contains (strToLower toa) = false) :
    getPortion f c tci tia tco toa =
      { result := Except.ok GET_NO_PORTION_RESPONSE, events := [] } := by
  rcases hmiss with h | h
  · have h' : strToLower tia ∉ BX_PORTION_ADDRESSES := by simpa using h
    simp [getPortion, hflag, h']
  · have h' : strToLower toa ∉ BX_PORTION_ADDRESSES := by simpa using h
    simp [getPortion, hflag, h']

/-- C2 witness: a concrete call with the output token off the allowlist and
the flag enabled yields no-portion with no effects. -/
theorem getPortion_enabled_offlist_witness :
    getPortion fetcherSample cFlagOn 1 "eth" 1
        "0x1111111111111111111111111111111111111111" =
      { result := Except.ok GET_NO_PORTION_RESPONSE, events := [] } :=
  getPortion_enabled_offlist fetcherSample cFlagOn 1 "eth" 1
    "0x1111111111111111111111111111111111111111" rfl (Or.inr (by decide))

/-- C6: `parseQuote` with a routing tag that is neither DUTCH_LIMIT nor
CLASSIC yields the `Unknown routing type` error carrying the offending tag;
no quote entity is constructed and the error is not converted to a default
value — it is the call's result. -/
theorem parseQuote_unknown_routing (request : QuoteRequest) (routing : String)
    (q : ReceivedQuoteData)
    (hd : routing ≠ RoutingType.DUTCH_LIMIT)
    (hc : routing ≠ RoutingType.CLASSIC) :
    parseQuote request routing q =
      Except.error ("Unknown routing type: " ++ routing) := by
  simp [parseQuote, hd, hc]

/-- C6 witness: the concrete unrecognized tag "LIMIT_ORDER" produces the
error carrying that tag. -/
theorem parseQuote_unknown_routing_witness :
    parseQuote reqExactInput "LIMIT_ORDER" (ReceivedQuoteData.classic dataSample) =
      Except.error ("Unknown routing type: " ++ "LIMIT_ORDER") :=
  parseQuote_unknown_routing reqExactInput "LIMIT_ORDER"
    (ReceivedQuoteData.classic dataSample) (by decide) (by decide)

/-- C7: for every ClassicQuote, when the request's trade type is EXACT_INPUT
then amountIn is the raw `amount` field and amountOut is the raw `quote`
field; when EXACT_OUTPUT the roles invert. -/
theorem classicQuote_amount_roles (q : ClassicQuote) :
    (q.request.info.tradeType = TradeType.EXACT_INPUT →
      q.amountIn = q.quoteData.amount ∧ q.amountOut = q.quoteData.quote) ∧
    (q.request.info.tradeType = TradeType.EXACT_OUTPUT →
      q.amountIn = q.quoteData.quote ∧ q.amountOut = q.quoteData.amount) := by
  constructor <;> intro h <;>
    simp [ClassicQuote.amountIn, ClassicQuote.amountOut, h]

/-- C7 witness: with amount 100 and quote 95, an EXACT_INPUT quote has
amountIn 100 and amountOut 95, and the same payload under EXACT_OUTPUT has
amountIn 95 and amountOut 100. -/
theorem classicQuote_amount_roles_witness :
    ((ClassicQuote.fromResponseBody reqExactInput dataSample).amountIn = 100 ∧
      (ClassicQuote.fromResponseBody reqExactInput dataSample).amountOut = 95) ∧
    ((ClassicQuote.fromResponseBody reqExactOutput dataSample).amountIn = 95 ∧
      (ClassicQuote.fromResponseBody reqExactOutput dataSample).amountOut = 100) :=
  ⟨(classicQuote_amount_roles (ClassicQuote.fromResponseBody reqExactInput dataSample)).1 rfl,
   (classicQuote_amount_roles (ClassicQuote.fromResponseBody reqExactOutput dataSample)).2 rfl⟩

/-- C8: for every ClassicQuote whose payload lacks the
quoteGasAndPortionAdjusted field, the gas-and-portion-adjusted accessor for
the computed side equals the gas-adjusted accessor for that side (the
fallback is applied rather than yielding an absent value). -/
theorem classicQuote_portion_fallback (q : ClassicQuote)
    (habs : q.quoteData.quoteGasAndPortionAdjusted = none) :
    (q.request.info.tradeType = TradeType.EXACT_INPUT →
      q.amountOutGasAndPortionAdjusted = q.amountOutGasAdjusted) ∧
    (q.request.info.tradeType = TradeType.EXACT_OUTPUT →
      q.amountInGasAndPortionAdjusted = q.amountInGasAdjusted) := by
  constructor <;> intro h <;>
    simp [ClassicQuote.amountOutGasAndPortionAdjusted,
      ClassicQuote.amountOutGasAdjusted,
      ClassicQuote.amountInGasAndPortionAdjusted,
      ClassicQuote.amountInGasAdjusted, h, habs]

/-- C8 witness: on the sample payload without quoteGasAndPortionAdjusted, the
EXACT_INPUT accessor falls back to the gas-adjusted output amount. -/
theorem classicQuote_portion_fallback_witness :
    (ClassicQuote.fromResponseBody reqExactInput dataSample).amountOutGasAndPortionAdjusted =
      (ClassicQuote.fromResponseBody reqExactInput dataSample).amountOutGasAdjusted :=
  (classicQuote_portion_fallback
    (ClassicQuote.fromResponseBody reqExactInput dataSample) rfl).1 rfl

/-- C3: when the two per-call flag reads agree, `getPortion` returns before
the cache-aside section: the effect trace is empty (no cache read or write,
no remote call); and the cache-aside/remote path produces effects exactly
when the first read is false and the second true. -/
theorem getPortion_flag_race (f : PortionFetcher) (c : PortionCollaborators)
    (tci : Nat) (tia : String) (tco : Nat) (toa : String) :
    (c.flagRead1 = c.flagRead2 → (getPortion f c tci tia tco toa).events = []) ∧
    ((getPortion f c tci tia tco toa).events ≠ [] ↔
      c.flagRead1 = false ∧ c.flagRead2 = true) := by
  obtain ⟨f1, f2, fp, cg, rm, cs⟩ := c
  have h := getPortion_events_nil_iff f f1 f2 fp cg rm cs tci tia tco toa
  constructor
  · intro hff
    rw [h]
    rintro ⟨ha, hb⟩
    simp_all
  · rw [ne_eq, h, not_not]

/-- C3 witness: with both flag reads disabled, the concrete call produces an
empty effect trace. -/
theorem getPortion_flag_race_witness :
    (getPortion fetcherSample cFlagOff 1 "eth" 1 "eth").events = [] :=
  (getPortion_flag_race fetcherSample cFlagOff 1 "eth" 1 "eth").1 rfl

/-- C4 counterexample: with the two flag reads disagreeing (false then true)
and the cache store's get throwing, this concrete call surfaces the
exception (`Except.error`) instead of resolving to the no-portion response,
refuting the claim that every collaborator failure is absorbed: the cache
get sits outside the try/catch. -/
theorem getPortion_cacheGet_throw_escapes :
    (getPortion fetcherSample cCacheGetThrows 1
      "0x1111111111111111111111111111111111111111" 1
      "0x2222222222222222222222222222222222222222").result =
      Except.error () := rfl

/-- C4 amended: provided the cache store's get does not throw, `getPortion`
never throws: every remaining collaborator failure (remote network error,
non-2xx, deserialization failure, a throwing cache set) is absorbed and the
call resolves with `Except.ok`; in particular, on the cache-aside path
(flag reads false then true, force mode off, cache miss) a failing remote
call or a throwing cache set resolves to the no-portion response. -/
theorem getPortion_never_throws_amended (f : PortionFetcher)
    (c : PortionCollaborators) (tci : Nat) (tia : String) (tco : Nat)
    (toa : String) (hget : c.cacheGet ≠ Except.error ()) :
    (∃ r, (getPortion f c tci tia tco toa).result = Except.ok r) ∧
    (c.flagRead1 = false → c.flagRead2 = true → c.forcePortion = false →
      c.cacheGet = Except.ok none →
      (c.remote = Except.error () ∨ c.cacheSet = Except.error ()) →
      (getPortion f c tci tia tco toa).result =
        Except.ok GET_NO_PORTION_RESPONSE) := by
  constructor
  · rcases hcg : c.cacheGet with ⟨⟩ | og
    · exact absurd hcg hget
    · exact getPortion_ok_of_cacheGet_ok f c tci tia tco toa og hcg
  · intro h1 h2 h3 h4 h5
    rcases h5 with h5 | h5
    · simp [getPortion, h1, h2, h3, h4, h5]
    · rcases hrm : c.remote with ⟨⟩ | resp
      · simp [getPortion, h1, h2, h3, h4, hrm]
      · rcases hp : resp.portion with _ | p <;>
          simp [getPortion, h1, h2, h3, h4, h5, hrm, hp]

/-- C4 witness: on the cache-aside path with a failing remote call and a
non-throwing cache get, the concrete call resolves with `Except.ok`, and in
fact to the no-portion response. -/
theorem getPortion_never_throws_amended_witness :
    (∃ r, (getPortion fetcherSample cRemoteFails 1 "0xaaa" 2 "0xbbb").result =
      Except.ok r) ∧
    (cRemoteFails.flagRead1 = false → cRemoteFails.flagRead2 = true →
      cRemoteFails.forcePortion = false →
      cRemoteFails.cacheGet = Except.ok none →
      (cRemoteFails.remote = Except.error () ∨
        cRemoteFails.cacheSet = Except.error ()) →
      (getPortion fetcherSample cRemoteFails 1 "0xaaa" 2 "0xbbb").result =
        Except.ok GET_NO_PORTION_RESPONSE) :=
  getPortion_never_throws_amended fetcherSample cRemoteFails 1 "0xaaa" 2 "0xbbb"
    (by simp [cRemoteFails])

/-- C5: on the cache-aside path with force mode off, a cache miss followed by
a successful remote response is written to the cache under the computed key —
with the positive-entry TTL when the response carries a portion and the
negative-entry TTL otherwise — and the response is returned; a subsequent
call with identical inputs whose cache get finds that entry returns the
cached value with no second remote call. -/
theorem getPortion_cacheAside_ttl_and_hit (f : PortionFetcher)
    (c c2 : PortionCollaborators) (tci : Nat) (tia : String) (tco : Nat)
    (toa : String) (resp : GetPortionResponse)
    (h1 : c.flagRead1 = false) (h2 : c.flagRead2 = true)
    (hf : c.forcePortion = false) (hg : c.cacheGet = Except.ok none)
    (hr : c.remote = Except.ok resp) (hs : c.cacheSet = Except.ok ())
    (h1' : c2.flagRead1 = false) (h2' : c2.flagRead2 = true)
    (hf' : c2.forcePortion = false)
    (hg' : c2.cacheGet = Except.ok (some resp)) :
    (getPortion f c tci tia tco toa).result = Except.ok resp ∧
    (getPortion f c tci tia tco toa).events =
      [ PortionEvent.cacheGet (PORTION_CACHE_KEY tci tia tco toa)
      , PortionEvent.remoteCall tci tia tco toa
      , PortionEvent.cacheSet (PORTION_CACHE_KEY tci tia tco toa) resp
          (if resp.portion.isSome then f.positiveCacheEntryTtl
           else f.negativeCacheEntryTtl) ] ∧
    (getPortion f c2 tci tia tco toa).result = Except.ok resp ∧
    (getPortion f c2 tci tia tco toa).events =
      [ PortionEvent.cacheGet (PORTION_CACHE_KEY tci tia tco toa) ] := by
  rcases hp : resp.portion with _ | p <;>
    simp [getPortion, h1, h2, hf, hg, hr, hs, h1', h2', hf', hg', hp]

/-- C5 witness: the concrete first call stores the portion-carrying remote
response under the key with the positive TTL and returns it; the concrete
second call returns the cached entry with a single cache-get effect. -/
theorem getPortion_cacheAside_ttl_and_hit_witness :
    (getPortion fetcherSample cRemoteOk 1 "0xAb" 1 "0xCd").result =
      Except.ok respWithPortion ∧
    (getPortion fetcherSample cRemoteOk 1 "0xAb" 1 "0xCd").events =
      [ PortionEvent.cacheGet (PORTION_CACHE_KEY 1 "0xAb" 1 "0xCd")
      , PortionEvent.remoteCall 1 "0xAb" 1 "0xCd"
      , PortionEvent.cacheSet (PORTION_CACHE_KEY 1 "0xAb" 1 "0xCd")
          respWithPortion
          (if respWithPortion.portion.isSome then
            fetcherSample.positiveCacheEntryTtl
           else fetcherSample.negativeCacheEntryTtl) ] ∧
    (getPortion fetcherSample cCacheHit 1 "0xAb" 1 "0xCd").result =
      Except.ok respWithPortion ∧
    (getPortion fetcherSample cCacheHit 1 "0xAb" 1 "0xCd").events =
      [ PortionEvent.cacheGet (PORTION_CACHE_KEY 1 "0xAb" 1 "0xCd") ] :=
  getPortion_cacheAside_ttl_and_hit fetcherSample cRemoteOk cCacheHit
    1 "0xAb" 1 "0xCd" respWithPortion rfl rfl rfl rfl rfl rfl rfl rfl rfl rfl

/-- C9: `getPermitData` returns none exactly when the request's swapper is
absent (falsy), or the recorded allowance's amount covers the quote's
amountIn and its expiration lies strictly after the current time in seconds;
in every other case it returns permit data built from the request's token-in
address and chain id, with the recorded allowance's nonce, or nonce "0" when
no allowance was ever recorded. -/
theorem classicQuote_getPermitData_spec (q : ClassicQuote) (nowSec : Int) :
    (q.getPermitData nowSec = none ↔
      (isFalsyStr q.request.info.swapper = true ∨
        ∃ a, q.allowanceData = some a ∧ q.amountIn ≤ a.amount ∧
          nowSec < a.expiration)) ∧
    (q.getPermitData nowSec ≠ none →
      q.getPermitData nowSec = some (createPermitData q.request.info.tokenIn
        q.request.info.tokenInChainId
        (match q.allowanceData with
         | some a => toString a.nonce
         | none => "0"))) := by
  unfold ClassicQuote.getPermitData
  rcases hA : q.allowanceData with _ | a <;>
    rcases hs : isFalsyStr q.request.info.swapper <;>
    simp [hA, hs]

/-- C9 witness: with a present swapper and no recorded allowance, the sample
quote yields fresh permit data carrying the token-in address, its chain id,
and nonce "0". -/
theorem classicQuote_getPermitData_spec_witness :
    (ClassicQuote.fromResponseBody reqExactInput dataSample).getPermitData
        1700000000 =
      some (createPermitData "0x6b175474e89094c44da98b954eedeac495271d0f" 1 "0") :=
  (classicQuote_getPermitData_spec
    (ClassicQuote.fromResponseBody reqExactInput dataSample) 1700000000).2
    (by decide)

/-- C10: the portion cache-key function is case-insensitive in both address
arguments: addresses equal up to letter casing produce equal keys. -/
theorem portionCacheKey_case_insensitive (tci : Nat) (a1 b1 : String)
    (tco : Nat) (a2 b2 : String)
    (h1 : eqUpToCase a1 b1) (h2 : eqUpToCase a2 b2) :
    PORTION_CACHE_KEY tci a1 tco a2 = PORTION_CACHE_KEY tci b1 tco b2 := by
  unfold eqUpToCase at h1 h2
  simp [PORTION_CACHE_KEY, strToLower, h1, h2]

/-- C10 witness: key(1,"0xABC",1,"0xdef") equals key(1,"0xabc",1,"0xDEF"). -/
theorem portionCacheKey_case_insensitive_witness :
    PORTION_CACHE_KEY 1 "0xABC" 1 "0xdef" = PORTION_CACHE_KEY 1 "0xabc" 1 "0xDEF" :=
  portionCacheKey_case_insensitive 1 "0xABC" "0xabc" 1 "0xdef" "0xDEF"
    (by decide) (by decide)

end URA
